import Mathlib

set_option linter.unusedVariables false
set_option maxRecDepth 4000

/-!
Verification of the swampdb document-store core (src/src/database.ts, with the
legacy variant src/unnamed/part_000 and the error-code table src/unnamed/part_001)
against its natural-language specification.

The execution layer (pg-promise) is external to the repository.  Its behaviour
is abstracted in two ways:
* a *scripted* layer, in which each call the facade makes to the execution
  layer is answered by an arbitrary caller-chosen response (rows or a typed
  error), so that the facade's classification, recovery and retry control flow
  can be proved for every possible behaviour of the execution layer; and
* a *semantic* layer, modelling what Postgres computes for each concrete
  statement text that the statement builder produces.
-/

namespace SwampDB

/-- Primitive JSON scalar values appearing in a stored document body
(models the leaves of a Postgres jsonb value). -/
inductive JVal where
  | null
  | bool (b : Bool)
  | num (n : Int)
  | str (s : String)
deriving DecidableEq

/-- A top-level JSON object: an association list from keys to values.  This is
the shape of a document `body` and of a search `criteria` (spec section 3). -/
abbrev JObj := List (String × JVal)

/-- Document envelope from src/src/database.ts lines 5-10: integer id,
created/updated timestamps (modelled as abstract instants), and the body. -/
structure Document where
  id : Nat
  created : Nat
  updated : Nat
  body : JObj
deriving DecidableEq

/-- An execution-layer failure, carrying the stable error code the classifier
inspects (src/src/database.ts reads `e.code`). -/
structure PgError where
  code : String
deriving DecidableEq

/-- Postgres.tableDoesNotExist from src/unnamed/part_001 line 6. -/
def tableDoesNotExist : String := "42P01"

/-- The single-quote character, U+0027, used by the statement builder to quote
field names spliced into SQL text. -/
def quoteChar : Char := Char.ofNat 39

/-- A one-character string holding the single quote. -/
def squote : String := ⟨[quoteChar]⟩

/-! ### Statement builder

Each definition below transcribes, character for character, the template
literal in the source (the typedtext `sql` tag is modelled as the identity on
the template's text; `$[name]` placeholders are parameter bindings, left
verbatim in the text exactly as in the source). -/

/-- Model of JavaScript `Array.prototype.join(sep)`: concatenate with the
separator between consecutive elements, empty string on the empty list. -/
def joinSep (sep : String) : List String → String
  | [] => ""
  | [x] => x
  | x :: y :: xs => x ++ sep ++ joinSep sep (y :: xs)

/-- One element of the `props.map(...)` in propsToColumns
(src/src/database.ts lines 156-158): the template
newline, four spaces, quoted name, comma, `body->`, quoted name, newline,
two spaces, with the name spliced in unescaped. -/
def propEntry (prop : String) : String :=
  "\n    " ++ squote ++ prop ++ squote ++ ", body->" ++ squote ++ prop ++ squote ++ "\n  "

/-- propsToColumns from src/src/database.ts lines 155-159.  Note the JavaScript
condition `!props`: only an *absent* (undefined) list selects `*`; an empty
array is truthy, so it produces `jsonb_build_object()` with no keys. -/
def propsToColumns (props : Option (List String)) : String :=
  match props with
  | none => "*"
  | some ps =>
      "jsonb_build_object(" ++ joinSep (", ") (ps.map propEntry) ++ ") " ++ "\"body\""

/-- Statement text built by tryGet (src/src/database.ts lines 45-50), with the
projection columns spliced in. -/
def getStmt (collection columns : String) : String :=
  "\n      select id, created, updated, " ++ columns ++
  "\n      from " ++ collection ++
  "\n      where id = $[id]\n      limit 1\n    "

/-- Statement text built by all (src/src/database.ts lines 55-59). -/
def allStmt (collection : String) : String :=
  "\n      select *\n      from " ++ collection ++ "\n      order by id asc\n    "

/-- Statement text built by find (src/src/database.ts lines 63-68). -/
def findStmt (collection : String) : String :=
  "\n      select *\n      from " ++ collection ++
  "\n      where body @> $[criteria]\n      order by id asc\n    "

/-- Statement text built by tryFindOne (src/src/database.ts lines 80-85). -/
def findOneStmt (collection : String) : String :=
  "\n      select *\n      from " ++ collection ++
  "\n      where body @> $[criteria]\n      limit 1\n    "

/-- Statement text built by insert (src/src/database.ts lines 90-94). -/
def insertStmt (collection : String) : String :=
  "\n      insert into " ++ collection ++
  " (body)\n      values ($[body])\n      returning *;\n    "

/-- Statement text built by update (src/src/database.ts lines 99-105). -/
def updateStmt (collection : String) : String :=
  "\n      update " ++ collection ++
  "\n      set body = ($[body]),\n          updated = now()\n      where id = $[id]\n      returning *;\n    "

/-- Statement text built by createCollection (src/src/database.ts lines
141-151): a plain `create table` (no tolerance of prior existence) followed by
the gin containment index. -/
def createCollectionStmt (collection : String) : String :=
  "\n      create table " ++ collection ++
  " (\n        id serial primary key,\n        body jsonb not null,\n        created timestamptz not null default now(),\n        updated timestamptz not null default now()\n      );\n      create index " ++
  collection ++ "_body_idx\n      on " ++ collection ++
  "\n      using gin (body jsonb_path_ops);\n    "

/-- Statement text built by the legacy variant's get
(src/unnamed/part_000 lines 39-44). -/
def legacyGetStmt (collection : String) : String :=
  "\n      select *\n      from " ++ collection ++
  "\n      where id = $[id]\n      limit 1\n    "

/-! ### Scripted execution layer and facade control flow -/

/-- One response of the execution layer to one `pg.query` call: either a list
of result rows or a typed failure. -/
abbrev Resp (Row : Type) := Except PgError (List Row)

/-- The criteria value carried by a MissingRecordError: `{ id }` for the
id-lookup path, the caller's criteria object for the search path
(src/src/database.ts lines 38 and 74). -/
inductive CriteriaVal where
  | byId (id : Nat)
  | byCriteria (criteria : JObj)
deriving DecidableEq

/-- A failure as observed by the facade's caller: either a propagated
execution-layer error, or MissingRecordError (src/src/database.ts lines
161-170). -/
inductive DbError where
  | pg (e : PgError)
  | missingRecord (collection : String) (criteria : CriteriaVal)
deriving DecidableEq

deriving instance DecidableEq for Except

/-- Outcome of one facade call in the scripted model: the value returned to
the caller (or the error thrown at it), together with the ordered list of
statement texts that were handed to the execution layer during the call. -/
structure Run (α : Type) where
  out : Except DbError α
  issued : List String
deriving DecidableEq

/-- queryCollection from src/src/database.ts lines 128-138: issue the query
once; rethrow any failure whose code differs from tableDoesNotExist; turn a
tableDoesNotExist failure into the empty row list.  `r` is the execution
layer's response to the one call made. -/
def queryCollection {Row : Type} (query : String) (r : Resp Row) :
    Resp Row × List String :=
  match r with
  | .ok rows => (.ok rows, [query])
  | .error e =>
      if e.code ≠ tableDoesNotExist then (.error e, [query])
      else (.ok [], [query])

/-- changeCollection from src/src/database.ts lines 114-125: issue the query;
rethrow a failure whose code differs from tableDoesNotExist; otherwise run
createCollection (whose own failure propagates, since it is awaited inside the
catch block) and reissue the query once, propagating its result unchanged.
`r₁`, `rc`, `r₂` are the execution layer's responses to, respectively, the
first attempt, the create-collection statement, and the retried attempt. -/
def changeCollection {Row : Type} (collection query : String)
    (r₁ rc r₂ : Resp Row) : Resp Row × List String :=
  match r₁ with
  | .ok rows => (.ok rows, [query])
  | .error e =>
      if e.code ≠ tableDoesNotExist then (.error e, [query])
      else
        match rc with
        | .error ec => (.error ec, [query, createCollectionStmt collection])
        | .ok _ => (r₂, [query, createCollectionStmt collection, query])

/-- tryGet from src/src/database.ts lines 43-52: query through the
read-recovery wrapper and return the first row, or null when no row came
back. -/
def tryGet {Row : Type} (collection : String) (id : Nat)
    (props : Option (List String)) (r : Resp Row) : Run (Option Row) :=
  match queryCollection (getStmt collection (propsToColumns props)) r with
  | (.ok results, tr) => ⟨.ok results.head?, tr⟩
  | (.error e, tr) => ⟨.error (.pg e), tr⟩

/-- get from src/src/database.ts lines 35-41: delegate to tryGet and throw
MissingRecordError with the collection name and `{ id }` when it returns
null. -/
def get {Row : Type} (collection : String) (id : Nat)
    (props : Option (List String)) (r : Resp Row) : Run Row :=
  let t := tryGet collection id props r
  ⟨match t.out with
   | .error e => .error e
   | .ok none => .error (.missingRecord collection (.byId id))
   | .ok (some d) => .ok d,
   t.issued⟩

/-- all from src/src/database.ts lines 54-60. -/
def all {Row : Type} (collection : String) (r : Resp Row) : Run (List Row) :=
  match queryCollection (allStmt collection) r with
  | (.ok results, tr) => ⟨.ok results, tr⟩
  | (.error e, tr) => ⟨.error (.pg e), tr⟩

/-- find from src/src/database.ts lines 62-69 (the criteria object is bound as
a parameter, not spliced into the text). -/
def find {Row : Type} (collection : String) (criteria : JObj) (r : Resp Row) :
    Run (List Row) :=
  match queryCollection (findStmt collection) r with
  | (.ok results, tr) => ⟨.ok results, tr⟩
  | (.error e, tr) => ⟨.error (.pg e), tr⟩

/-- tryFindOne from src/src/database.ts lines 79-87. -/
def tryFindOne {Row : Type} (collection : String) (criteria : JObj)
    (r : Resp Row) : Run (Option Row) :=
  match queryCollection (findOneStmt collection) r with
  | (.ok results, tr) => ⟨.ok results.head?, tr⟩
  | (.error e, tr) => ⟨.error (.pg e), tr⟩

/-- findOne from src/src/database.ts lines 71-77: delegate to tryFindOne and
throw MissingRecordError with the collection name and the criteria when it
returns null. -/
def findOne {Row : Type} (collection : String) (criteria : JObj)
    (r : Resp Row) : Run Row :=
  let t := tryFindOne collection criteria r
  ⟨match t.out with
   | .error e => .error e
   | .ok none => .error (.missingRecord collection (.byCriteria criteria))
   | .ok (some d) => .ok d,
   t.issued⟩

/-- insert from src/src/database.ts lines 89-96: write through the
create-on-demand wrapper and return the first returned row (absent when the
execution layer returned no rows).  The body is bound as a parameter. -/
def insert {Row : Type} (collection : String) (body : JObj)
    (r₁ rc r₂ : Resp Row) : Run (Option Row) :=
  match changeCollection collection (insertStmt collection) r₁ rc r₂ with
  | (.ok results, tr) => ⟨.ok results.head?, tr⟩
  | (.error e, tr) => ⟨.error (.pg e), tr⟩

/-- raw from src/src/database.ts lines 109-111: pass the statement straight to
the execution layer with no recovery of any kind. -/
def raw {Row : Type} (query : String) (r : Resp Row) : Run (List Row) :=
  match r with
  | .ok rows => ⟨.ok rows, [query]⟩
  | .error e => ⟨.error (.pg e), [query]⟩

/-- update from src/src/database.ts lines 98-107: issue the update statement
through `raw` (so with no recovery and no provisioning) and return the first
returned row (absent when no row matched). -/
def update {Row : Type} (collection : String) (id : Nat) (body : JObj)
    (r : Resp Row) : Run (Option Row) :=
  let rr := raw (updateStmt collection) r
  ⟨match rr.out with
   | .error e => .error e
   | .ok results => .ok results.head?,
   rr.issued⟩

/-- get of the legacy variant, src/unnamed/part_000 lines 38-46: same
read-recovery wrapper, `select *` statement, returns the first row or null —
it never throws MissingRecordError. -/
def legacyGet {Row : Type} (collection : String) (id : Nat) (r : Resp Row) :
    Run (Option Row) :=
  match queryCollection (legacyGetStmt collection) r with
  | (.ok results, tr) => ⟨.ok results.head?, tr⟩
  | (.error e, tr) => ⟨.error (.pg e), tr⟩

/-! ### Semantic model of the execution layer on the built statements

These definitions model what Postgres computes for the concrete statement
texts produced above, at the granularity the spec describes (top-level keys of
the jsonb body; `limit 1`; `order by id asc`). -/

/-- Models the jsonb containment test `body @> criteria` at the granularity of
spec section 3: every key of the criteria object must be present in the body
with an equal value; absent keys are unconstrained. -/
def containsCriteria (body criteria : JObj) : Bool :=
  criteria.all (fun kv => body.lookup kv.1 == some kv.2)

/-- Boolean comparison by document id, the sort key of `order by id asc`. -/
def docLe (a b : Document) : Bool := a.id ≤ b.id

/-- Models the execution of the statement built by all: every stored row,
ordered by ascending id (the stored rows themselves carry no order). -/
def evalAll (rows : List Document) : List Document :=
  rows.mergeSort docLe

/-- Models the execution of the statement built by find: the rows whose body
contains the criteria, ordered by ascending id. -/
def evalFind (rows : List Document) (criteria : JObj) : List Document :=
  (rows.filter (fun d => containsCriteria d.body criteria)).mergeSort docLe

/-- Models the execution of the projection expression
`jsonb_build_object(k, body->k, ...) "body"` that propsToColumns builds for a
present field list: each requested key paired with its stored value, with SQL
null (hence JSON null) for a key the body never set. -/
def projectBody (ps : List String) (body : JObj) : JObj :=
  ps.map (fun p => (p, (body.lookup p).getD JVal.null))

/-- Models the execution of the statement built by the legacy variant's get:
the row with the given id, if any (ids are unique, `limit 1`). -/
def evalGetLegacy (rows : List Document) (id : Nat) : List Document :=
  (rows.filter (fun d => d.id == id)).take 1

/-- Models the execution of the statement built by tryGet:
`select id, created, updated, <columns> ... limit 1`.  For an absent field
list the columns are `*`; the driver collapses the duplicated id, created,
updated columns into the same object fields, so the row is the full document.
For a present field list the body is re-projected by projectBody. -/
def evalGetEnvelope (rows : List Document) (id : Nat)
    (props : Option (List String)) : List Document :=
  match props with
  | none => (rows.filter (fun d => d.id == id)).take 1
  | some ps =>
      ((rows.filter (fun d => d.id == id)).take 1).map
        (fun d => { d with body := projectBody ps d.body })

/-- Models the execution of the statement built by update: replace the body of
every row with the given id, refresh its updated timestamp to the current
instant, leave created untouched; the first component is the table afterwards,
the second the rows returned by `returning *`. -/
def evalUpdate (rows : List Document) (id : Nat) (body : JObj) (now : Nat) :
    List Document × List Document :=
  (rows.map (fun d => if d.id == id then { d with body := body, updated := now } else d),
   (rows.filter (fun d => d.id == id)).map
     (fun d => { d with body := body, updated := now }))

/-! ### Character-level view of the projection builder (for the splicing
analysis of propsToColumns) -/

/-- Character stream of one projection entry: the field name spliced verbatim,
twice, between bare single quotes, with no escaping — written from the shape
of the template in propsToColumns. -/
def entryChars (p : List Char) : List Char :=
  ("\n    ").data ++ [quoteChar] ++ p ++ [quoteChar] ++ (", body->").data ++
  [quoteChar] ++ p ++ [quoteChar] ++ ("\n  ").data

/-- Character stream of the joined projection entries. -/
def spliceFields : List String → List Char
  | [] => []
  | [p] => entryChars p.data
  | p :: q :: ps => entryChars p.data ++ (", ").data ++ spliceFields (q :: ps)

/-- Split a character list at every occurrence of the given character (the
separators are dropped; n separators yield n+1 segments). -/
def splitOnChar (ch : Char) : List Char → List (List Char)
  | [] => [[]]
  | c :: rest =>
    let r := splitOnChar ch rest
    if c = ch then [] :: r
    else
      match r with
      | [] => [[c]]
      | s :: ss => (c :: s) :: ss

/-- The segments of a statement text between its single quotes: under SQL
lexing of a quote-balanced statement, even-indexed segments are outside string
literals and odd-indexed segments are the literals' contents. -/
def quoteSegments (s : String) : List (List Char) :=
  splitOnChar quoteChar s.data

/-! ## Theorems -/

/-- C1: insert executes the insert statement once; a failure whose code is not
tableDoesNotExist propagates unchanged with no provisioning; on a
tableDoesNotExist failure it provisions the collection and retries the insert
exactly once, propagating the retried attempt's result unchanged — including a
second tableDoesNotExist failure; and every possible trace of an insert call
issues the insert statement at most twice, so at most one retry ever
happens. -/
theorem insert_provision_retry_once {Row : Type} (c : String) (body : JObj) :
    (∀ (rows : List Row) (rc r₂ : Resp Row),
        insert c body (.ok rows) rc r₂ = ⟨.ok rows.head?, [insertStmt c]⟩)
  ∧ (∀ (e : PgError) (rc r₂ : Resp Row), e.code ≠ tableDoesNotExist →
        insert c body (.error e) rc r₂ = ⟨.error (.pg e), [insertStmt c]⟩)
  ∧ (∀ (e : PgError) (rowsc rows₂ : List Row), e.code = tableDoesNotExist →
        insert c body (.error e) (.ok rowsc) (.ok rows₂) =
          ⟨.ok rows₂.head?, [insertStmt c, createCollectionStmt c, insertStmt c]⟩)
  ∧ (∀ (e e₂ : PgError) (rowsc : List Row), e.code = tableDoesNotExist →
        insert c body (.error e) (.ok rowsc) (.error e₂) =
          ⟨.error (.pg e₂), [insertStmt c, createCollectionStmt c, insertStmt c]⟩)
  ∧ (∀ (r₁ rc r₂ : Resp Row),
        (insert c body r₁ rc r₂).issued = [insertStmt c]
      ∨ (insert c body r₁ rc r₂).issued = [insertStmt c, createCollectionStmt c]
      ∨ (insert c body r₁ rc r₂).issued
          = [insertStmt c, createCollectionStmt c, insertStmt c]) := by
  refine ⟨?_, ?_, ?_, ?_, ?_⟩
  · intro rows rc r₂
    simp [insert, changeCollection]
  · intro e rc r₂ he
    simp [insert, changeCollection, he]
  · intro e rowsc rows₂ he
    simp [insert, changeCollection, he]
  · intro e e₂ rowsc he
    simp [insert, changeCollection, he]
  · intro r₁ rc r₂
    rcases r₁ with e | rows
    · by_cases he : e.code = tableDoesNotExist
      · rcases rc with ec | rowsc
        · simp [insert, changeCollection, he]
        · rcases r₂ with e₂ | rows₂ <;> simp [insert, changeCollection, he]
      · simp [insert, changeCollection, he]
    · simp [insert, changeCollection]

/-- C1 witness: concrete scripted runs exercising the provision-and-retry path,
the propagate-other-errors path, and the fatal second tableDoesNotExist. -/
theorem insert_provision_retry_once_witness :
    insert ("users") [] (Except.error ⟨"42P01"⟩ : Resp Nat) (.ok []) (.ok [7]) =
      ⟨.ok (some 7), [insertStmt ("users"), createCollectionStmt ("users"), insertStmt ("users")]⟩
  ∧ insert ("users") [] (Except.error ⟨"40001"⟩ : Resp Nat) (.ok []) (.ok [7]) =
      ⟨.error (.pg ⟨"40001"⟩), [insertStmt ("users")]⟩
  ∧ insert ("users") [] (Except.error ⟨"42P01"⟩ : Resp Nat) (.ok []) (.error ⟨"42P01"⟩) =
      ⟨.error (.pg ⟨"42P01"⟩),
       [insertStmt ("users"), createCollectionStmt ("users"), insertStmt ("users")]⟩ := by
  have h := @insert_provision_retry_once Nat ("users") []
  exact ⟨h.2.2.1 ⟨"42P01"⟩ [] [7] rfl,
         h.2.1 ⟨"40001"⟩ (.ok []) (.ok [7]) (by decide),
         h.2.2.2.1 ⟨"42P01"⟩ ⟨"42P01"⟩ [] rfl⟩

/-- C2: on an execution failure with the tableDoesNotExist code, all and find
return the empty sequence, tryGet and tryFindOne return null, get and findOne
fail with MissingRecordError; every read issues exactly its own read statement
(so no read ever provisions); and a failure with any other code propagates to
the caller unchanged. -/
theorem reads_collection_missing_empty {Row : Type} (c : String) (id : Nat)
    (props : Option (List String)) (criteria : JObj) :
    (∀ e : PgError, e.code = tableDoesNotExist →
        all c (Except.error e : Resp Row) = ⟨.ok [], [allStmt c]⟩
      ∧ find c criteria (Except.error e : Resp Row) = ⟨.ok [], [findStmt c]⟩
      ∧ tryGet c id props (Except.error e : Resp Row) =
          ⟨.ok none, [getStmt c (propsToColumns props)]⟩
      ∧ tryFindOne c criteria (Except.error e : Resp Row) =
          ⟨.ok none, [findOneStmt c]⟩
      ∧ get c id props (Except.error e : Resp Row) =
          ⟨.error (.missingRecord c (.byId id)), [getStmt c (propsToColumns props)]⟩
      ∧ findOne c criteria (Except.error e : Resp Row) =
          ⟨.error (.missingRecord c (.byCriteria criteria)), [findOneStmt c]⟩)
  ∧ (∀ e : PgError, e.code ≠ tableDoesNotExist →
        all c (Except.error e : Resp Row) = ⟨.error (.pg e), [allStmt c]⟩
      ∧ find c criteria (Except.error e : Resp Row) = ⟨.error (.pg e), [findStmt c]⟩
      ∧ tryGet c id props (Except.error e : Resp Row) =
          ⟨.error (.pg e), [getStmt c (propsToColumns props)]⟩
      ∧ tryFindOne c criteria (Except.error e : Resp Row) =
          ⟨.error (.pg e), [findOneStmt c]⟩
      ∧ get c id props (Except.error e : Resp Row) =
          ⟨.error (.pg e), [getStmt c (propsToColumns props)]⟩
      ∧ findOne c criteria (Except.error e : Resp Row) =
          ⟨.error (.pg e), [findOneStmt c]⟩) := by
  constructor
  · intro e he
    refine ⟨?_, ?_, ?_, ?_, ?_, ?_⟩ <;>
      simp [all, find, tryGet, tryFindOne, get, findOne, queryCollection, he]
  · intro e he
    refine ⟨?_, ?_, ?_, ?_, ?_, ?_⟩ <;>
      simp [all, find, tryGet, tryFindOne, get, findOne, queryCollection, he]

/-- C2 witness: concrete runs of the six reads against a missing table and
against a distinct failure code. -/
theorem reads_collection_missing_empty_witness :
    all ("users") (Except.error ⟨"42P01"⟩ : Resp Nat) = ⟨.ok [], [allStmt ("users")]⟩
  ∧ get ("users") 1 none (Except.error ⟨"42P01"⟩ : Resp Nat) =
      ⟨.error (.missingRecord ("users") (.byId 1)), [getStmt ("users") (propsToColumns none)]⟩
  ∧ tryFindOne ("users") [] (Except.error ⟨"08006"⟩ : Resp Nat) =
      ⟨.error (.pg ⟨"08006"⟩), [findOneStmt ("users")]⟩ := by
  have h := @reads_collection_missing_empty Nat ("users") 1 none []
  exact ⟨(h.1 ⟨"42P01"⟩ rfl).1, (h.1 ⟨"42P01"⟩ rfl).2.2.2.2.1,
         (h.2 ⟨"08006"⟩ (by decide)).2.2.2.1⟩

/-- C3 counterexample: the claim says the tableDoesNotExist condition never
reaches a caller of any public operation as a raw execution error, but update
(which issues its statement through raw, with no recovery) hands exactly that
raw error to its caller. -/
theorem update_surfaces_collection_missing :
    update ("users") 1 [] (Except.error ⟨"42P01"⟩ : Resp Nat) =
      ⟨.error (.pg ⟨"42P01"⟩), [updateStmt ("users")]⟩
  ∧ raw (updateStmt ("users")) (Except.error ⟨"42P01"⟩ : Resp Nat) =
      ⟨.error (.pg ⟨"42P01"⟩), [updateStmt ("users")]⟩ := by
  constructor <;> rfl

/-- C3 amended: the tableDoesNotExist condition is resolved internally on the
six read paths (empty sequence, null, or MissingRecordError) and on insert's
first attempt (provision and retry); update and raw, however, propagate it to
their caller unchanged as a raw execution error. -/
theorem collection_missing_resolution {Row : Type} (c q : String) (id : Nat)
    (props : Option (List String)) (criteria : JObj) (body : JObj)
    (e : PgError) (he : e.code = tableDoesNotExist) :
    (all c (Except.error e : Resp Row)).out = .ok []
  ∧ (find c criteria (Except.error e : Resp Row)).out = .ok []
  ∧ (tryGet c id props (Except.error e : Resp Row)).out = .ok none
  ∧ (tryFindOne c criteria (Except.error e : Resp Row)).out = .ok none
  ∧ (get c id props (Except.error e : Resp Row)).out
      = .error (.missingRecord c (.byId id))
  ∧ (findOne c criteria (Except.error e : Resp Row)).out
      = .error (.missingRecord c (.byCriteria criteria))
  ∧ (∀ rowsc rows₂ : List Row,
        insert c body (.error e) (.ok rowsc) (.ok rows₂) =
          ⟨.ok rows₂.head?, [insertStmt c, createCollectionStmt c, insertStmt c]⟩)
  ∧ update c id body (Except.error e : Resp Row) = ⟨.error (.pg e), [updateStmt c]⟩
  ∧ raw q (Except.error e : Resp Row) = ⟨.error (.pg e), [q]⟩ := by
  refine ⟨?_, ?_, ?_, ?_, ?_, ?_, ?_, ?_, ?_⟩
  · simp [all, queryCollection, he]
  · simp [find, queryCollection, he]
  · simp [tryGet, queryCollection, he]
  · simp [tryFindOne, queryCollection, he]
  · simp [get, tryGet, queryCollection, he]
  · simp [findOne, tryFindOne, queryCollection, he]
  · intro rowsc rows₂
    simp [insert, changeCollection, he]
  · simp [update, raw]
  · simp [raw]

/-- C3 amended witness: the resolution and propagation outcomes at the
concrete tableDoesNotExist code. -/
theorem collection_missing_resolution_witness :
    (all ("users") (Except.error ⟨"42P01"⟩ : Resp Nat)).out = .ok []
  ∧ update ("users") 1 [] (Except.error ⟨"42P01"⟩ : Resp Nat) =
      ⟨.error (.pg ⟨"42P01"⟩), [updateStmt ("users")]⟩ := by
  have h := @collection_missing_resolution Nat ("users") ("q") 1 none [] [] ⟨"42P01"⟩ rfl
  exact ⟨h.1, h.2.2.2.2.2.2.2.1⟩

/-- C6: get returns exactly the document tryGet returns when that is non-null,
and fails with MissingRecordError carrying the collection name and the id
exactly when tryGet returns null — whether because the backing table is absent
or because it exists with no matching row, which collapse to the same error;
findOne and tryFindOne satisfy the same relation with the criteria object in
place of the id. -/
theorem get_tryGet_findOne_agree {Row : Type} (c : String) (id : Nat)
    (props : Option (List String)) (criteria : JObj) (r : Resp Row) :
    (∀ d : Row, (tryGet c id props r).out = .ok (some d) →
        (get c id props r).out = .ok d)
  ∧ ((tryGet c id props r).out = .ok none →
        (get c id props r).out = .error (.missingRecord c (.byId id)))
  ∧ (∀ er : DbError, (tryGet c id props r).out = .error er →
        (get c id props r).out = .error er)
  ∧ ((get c id props (Except.ok ([] : List Row))).out
        = .error (.missingRecord c (.byId id)))
  ∧ (∀ e : PgError, e.code = tableDoesNotExist →
        (get c id props (Except.error e : Resp Row)).out
          = .error (.missingRecord c (.byId id)))
  ∧ (∀ d : Row, (tryFindOne c criteria r).out = .ok (some d) →
        (findOne c criteria r).out = .ok d)
  ∧ ((tryFindOne c criteria r).out = .ok none →
        (findOne c criteria r).out = .error (.missingRecord c (.byCriteria criteria)))
  ∧ (∀ er : DbError, (tryFindOne c criteria r).out = .error er →
        (findOne c criteria r).out = .error er) := by
  refine ⟨?_, ?_, ?_, ?_, ?_, ?_, ?_, ?_⟩
  · intro d h
    simp [get, h]
  · intro h
    simp [get, h]
  · intro er h
    simp [get, h]
  · simp [get, tryGet, queryCollection]
  · intro e he
    simp [get, tryGet, queryCollection, he]
  · intro d h
    simp [findOne, h]
  · intro h
    simp [findOne, h]
  · intro er h
    simp [findOne, h]

/-- C6 witness: a hit returned identically by get and tryGet, and the two
collapsing miss causes. -/
theorem get_tryGet_findOne_agree_witness :
    (get ("users") 1 none (Except.ok [5] : Resp Nat)).out = .ok 5
  ∧ (get ("users") 1 none (Except.ok ([] : List Nat))).out
      = .error (.missingRecord ("users") (.byId 1))
  ∧ (get ("users") 1 none (Except.error ⟨"42P01"⟩ : Resp Nat)).out
      = .error (.missingRecord ("users") (.byId 1)) := by
  have h := @get_tryGet_findOne_agree Nat ("users") 1 none [] (Except.ok [5])
  exact ⟨h.1 5 rfl, h.2.2.2.1, h.2.2.2.2.1 ⟨"42P01"⟩ rfl⟩

/-- Transitivity of the id comparison used by `order by id asc`. -/
theorem docLe_trans (a b c : Document) (hab : docLe a b = true)
    (hbc : docLe b c = true) : docLe a c = true := by
  simp only [docLe, decide_eq_true_eq] at *
  omega

/-- Totality of the id comparison used by `order by id asc`. -/
theorem docLe_total (a b : Document) : (docLe a b || docLe b a) = true := by
  simp only [docLe]
  rcases Nat.le_total a.id b.id with h | h <;> simp [h]

/-- C7: all returns every stored document ordered by ascending id, and find
returns exactly the documents whose body structurally contains the criteria
(every key of the criteria present with an equal value), also ordered by
ascending id; the facade hands both sequences to the caller unchanged. -/
theorem all_find_ordered_contain (c : String) (rows : List Document)
    (criteria : JObj) :
    (evalAll rows).Pairwise (fun a b => a.id ≤ b.id)
  ∧ List.Perm (evalAll rows) rows
  ∧ (∀ d : Document, d ∈ evalAll rows ↔ d ∈ rows)
  ∧ (evalFind rows criteria).Pairwise (fun a b => a.id ≤ b.id)
  ∧ (∀ d : Document, d ∈ evalFind rows criteria ↔
        d ∈ rows ∧ containsCriteria d.body criteria = true)
  ∧ all c (Except.ok (evalAll rows) : Resp Document) =
      ⟨.ok (evalAll rows), [allStmt c]⟩
  ∧ find c criteria (Except.ok (evalFind rows criteria) : Resp Document) =
      ⟨.ok (evalFind rows criteria), [findStmt c]⟩ := by
  refine ⟨?_, ?_, ?_, ?_, ?_, ?_, ?_⟩
  · exact (List.sorted_mergeSort docLe_trans docLe_total rows).imp
      (fun h => by simpa [docLe] using h)
  · exact List.mergeSort_perm rows docLe
  · intro d
    simp [evalAll, List.mem_mergeSort]
  · exact (List.sorted_mergeSort docLe_trans docLe_total _).imp
      (fun h => by simpa [docLe] using h)
  · intro d
    simp [evalFind, List.mem_mergeSort, List.mem_filter]
  · simp [all, queryCollection]
  · simp [find, queryCollection]

/-- The rows matched by an id filter when ids are unique: exactly the one
matching document. -/
theorem filter_id_single (rows : List Document) (d : Document)
    (hnd : (rows.map Document.id).Nodup) (hd : d ∈ rows) :
    rows.filter (fun x => x.id == d.id) = [d] := by
  induction rows with
  | nil => cases hd
  | cons e es ih =>
    simp only [List.map_cons, List.nodup_cons] at hnd
    rcases List.mem_cons.mp hd with rfl | hmem
    · have hnil : es.filter (fun x => x.id == d.id) = [] := by
        rw [List.filter_eq_nil_iff]
        intro x hx
        simp only [beq_iff_eq]
        intro hxe
        exact hnd.1 (hxe ▸ List.mem_map_of_mem Document.id hx)
      simp [List.filter_cons, hnil]
    · have hne : (e.id == d.id) = false := by
        simp only [beq_eq_false_iff_ne, ne_eq]
        intro hxe
        exact hnd.1 (hxe ▸ List.mem_map_of_mem Document.id hmem)
      simp [List.filter_cons, hne, ih hnd.2 hmem]

/-- A table in which no row carries the updated id is left unchanged by the
update statement, and it returns no rows. -/
theorem evalUpdate_no_match (rows : List Document) (id : Nat) (body : JObj)
    (now : Nat) (h : ∀ d ∈ rows, d.id ≠ id) :
    evalUpdate rows id body now = (rows, []) := by
  unfold evalUpdate
  simp only [Prod.mk.injEq]
  constructor
  · induction rows with
    | nil => rfl
    | cons e es ih =>
      have he : e.id ≠ id := h e (List.mem_cons_self e es)
      have ht := ih (fun d hd => h d (List.mem_cons_of_mem e hd))
      rw [List.map_cons, if_neg (by simp [he]), ht]
  · rw [List.filter_eq_nil_iff.mpr, List.map_nil]
    intro d hd
    simpa using h d hd

/-- C8: update issues exactly its own statement (never the provisioning
statement); when the execution layer returns no rows the caller observes the
empty outcome directly, never a MissingRecordError; a table without the id is
untouched and yields no row; and when a unique row matches, the update
replaces its body, refreshes updated to the current instant, leaves created
untouched, and hands that updated document back to the caller. -/
theorem update_no_provision_semantics {Row : Type} (c : String) (id : Nat)
    (body : JObj) (r : Resp Row) (rows : List Document) (now : Nat) :
    (update c id body r).issued = [updateStmt c]
  ∧ (update c id body (Except.ok ([] : List Row))).out = .ok none
  ∧ (∀ cr : CriteriaVal,
        (update c id body (Except.ok ([] : List Row))).out
          ≠ .error (.missingRecord c cr))
  ∧ ((∀ d ∈ rows, d.id ≠ id) → evalUpdate rows id body now = (rows, []))
  ∧ (∀ d ∈ rows, d.id = id → (rows.map Document.id).Nodup →
        (evalUpdate rows id body now).2 = [(⟨id, d.created, now, body⟩ : Document)]
      ∧ update c id body
          (Except.ok [(⟨id, d.created, now, body⟩ : Document)] : Resp Document) =
          ⟨.ok (some ⟨id, d.created, now, body⟩), [updateStmt c]⟩) := by
  refine ⟨?_, ?_, ?_, ?_, ?_⟩
  · rcases r with e | rs <;> simp [update, raw]
  · simp [update, raw]
  · intro cr
    simp [update, raw]
  · exact evalUpdate_no_match rows id body now
  · intro d hd hid hnd
    constructor
    · have hfil : rows.filter (fun x => x.id == id) = [d] := by
        rw [← hid]
        exact filter_id_single rows d hnd hd
      simp [evalUpdate, hfil, hid]
    · simp [update, raw]

/-- C8 witness: a one-row table updated at its id, and a miss observed as the
empty outcome. -/
theorem update_no_provision_semantics_witness :
    (evalUpdate [⟨1, 3, 3, [(("x"), JVal.num 1)]⟩] 1 [(("x"), JVal.num 2)] 9).2
      = [(⟨1, 3, 9, [(("x"), JVal.num 2)]⟩ : Document)]
  ∧ (update ("users") 1 [(("x"), JVal.num 2)]
      (Except.ok ([] : List Nat))).out = .ok none
  ∧ evalUpdate [⟨1, 3, 3, [(("x"), JVal.num 1)]⟩] 2 [] 9
      = ([⟨1, 3, 3, [(("x"), JVal.num 1)]⟩], []) := by
  have h := @update_no_provision_semantics Nat ("users") 1 [(("x"), JVal.num 2)]
    (Except.ok []) [⟨1, 3, 3, [(("x"), JVal.num 1)]⟩] 9
  have h2 := @update_no_provision_semantics Nat ("users") 2 []
    (Except.ok []) [⟨1, 3, 3, [(("x"), JVal.num 1)]⟩] 9
  exact ⟨(h.2.2.2.2 _ (List.mem_singleton_self _) rfl (by decide)).1,
         h.2.1,
         h2.2.2.2.1 (by decide)⟩

/-- C9: the legacy variant's get computes, for every scripted response of the
execution layer, the same caller-visible result as the current tryGet without
a projection list (document on a hit, null on a miss, null via the recovery on
a missing table, any other failure propagated unchanged), and the two
statements evaluate to the same rows in the semantic model. -/
theorem legacy_get_equiv_tryGet (c : String) (id : Nat) (rows : List Document) :
    (∀ r : Resp Document, (legacyGet c id r).out = (tryGet c id none r).out)
  ∧ evalGetLegacy rows id = evalGetEnvelope rows id none
  ∧ (legacyGet c id (Except.ok (evalGetLegacy rows id))).out
      = (tryGet c id none (Except.ok (evalGetEnvelope rows id none))).out := by
  refine ⟨?_, rfl, rfl⟩
  intro r
  rcases r with e | rs
  · by_cases he : e.code = tableDoesNotExist <;>
      simp [legacyGet, tryGet, queryCollection, he]
  · simp [legacyGet, tryGet, queryCollection]

/-- C4 counterexample: the claim says an empty or absent projected-fields
argument selects the full body, but only the absent argument does — the empty
list is truthy in the source's `!props` test, so it builds an empty
`jsonb_build_object()` projection whose evaluation strips the whole body. -/
theorem projection_empty_props_counterexample :
    propsToColumns (some ([] : List String)) = "jsonb_build_object() " ++ "\"body\""
  ∧ propsToColumns (some ([] : List String)) ≠ propsToColumns none
  ∧ evalGetEnvelope [⟨1, 0, 0, [(("x"), JVal.num 1)]⟩] 1 (some [])
      = [⟨1, 0, 0, []⟩]
  ∧ evalGetEnvelope [⟨1, 0, 0, [(("x"), JVal.num 1)]⟩] 1 none
      = [⟨1, 0, 0, [(("x"), JVal.num 1)]⟩] := by
  exact ⟨rfl, by decide, by decide, by decide⟩

/-- C4 amended: an absent field list selects the full body plus the
id/created/updated envelope (columns `*`); a present field list — the empty
list included — re-projects the body to exactly the named top-level keys, each
paired with its stored value or with null when never set, and never an extra
key. -/
theorem projection_exact_keys (c : String) (ps : List String) (body : JObj)
    (rows : List Document) (id : Nat) :
    propsToColumns none = "*"
  ∧ getStmt c (propsToColumns none) = getStmt c ("*")
  ∧ evalGetEnvelope rows id none = (rows.filter (fun d => d.id == id)).take 1
  ∧ (projectBody ps body).map Prod.fst = ps
  ∧ (∀ p ∈ ps, (p, ((body.lookup p).getD JVal.null)) ∈ projectBody ps body)
  ∧ (∀ kv ∈ projectBody ps body,
        kv.1 ∈ ps ∧ kv.2 = ((body.lookup kv.1).getD JVal.null))
  ∧ evalGetEnvelope rows id (some ps) =
      ((rows.filter (fun d => d.id == id)).take 1).map
        (fun d => { d with body := projectBody ps d.body }) := by
  refine ⟨rfl, rfl, rfl, ?_, ?_, ?_, rfl⟩
  · induction ps with
    | nil => rfl
    | cons p pt ih => simpa [projectBody] using ih
  · intro p hp
    exact List.mem_map.mpr ⟨p, hp, rfl⟩
  · intro kv hkv
    rcases List.mem_map.mp hkv with ⟨p, hp, rfl⟩
    exact ⟨hp, rfl⟩

/-- C4 amended witness: a two-field projection over a body that stores only
one of them — the stored value and the null placeholder, and exactly the
requested keys. -/
theorem projection_exact_keys_witness :
    (("y"), JVal.null) ∈ projectBody [("x"), ("y")] [(("x"), JVal.num 1)]
  ∧ (projectBody [("x"), ("y")] [(("x"), JVal.num 1)]).map Prod.fst
      = [("x"), ("y")] := by
  have h := projection_exact_keys ("users") [("x"), ("y")] [(("x"), JVal.num 1)] [] 1
  exact ⟨h.2.2.2.2.1 ("y") (by decide), h.2.2.2.1⟩

/-- C5 counterexample: when a racing writer has already created the table, the
provisioning create statement fails with the relation-already-exists code
"42P07"; that failure is not classified as success and no tolerant creation
statement is used — it surfaces as a fatal error to the racing caller's
insert. -/
theorem provisioning_race_error_surfaces :
    insert ("users") [] (Except.error ⟨"42P01"⟩ : Resp Nat)
        (.error ⟨"42P07"⟩) (.ok []) =
      ⟨.error (.pg ⟨"42P07"⟩), [insertStmt ("users"), createCollectionStmt ("users")]⟩ := by
  decide

/-- C5 amended: the provisioning statement is a plain `create table` (its text
begins with exactly that, with no tolerance of prior existence), and any
failure of it — the relation-already-exists condition included — propagates
unchanged to the caller of insert, so the loser of a benign provisioning race
observes a fatal error. -/
theorem provisioning_failure_propagates {Row : Type} (c : String) (body : JObj)
    (e ec : PgError) (r₂ : Resp Row) (he : e.code = tableDoesNotExist) :
    insert c body (.error e) (.error ec) r₂ =
      ⟨.error (.pg ec), [insertStmt c, createCollectionStmt c]⟩
  ∧ ((createCollectionStmt c).data).take 20 = ("\n      create table ").data := by
  constructor
  · simp [insert, changeCollection, he]
  · simp only [createCollectionStmt, String.data_append, List.append_assoc]
    exact List.take_left' rfl

/-- C5 amended witness: the concrete duplicate-table failure propagating out
of insert. -/
theorem provisioning_failure_propagates_witness :
    insert ("people") [] (Except.error ⟨"42P01"⟩ : Resp Nat)
        (.error ⟨"42P07"⟩) (.ok []) =
      ⟨.error (.pg ⟨"42P07"⟩), [insertStmt ("people"), createCollectionStmt ("people")]⟩ := by
  exact (@provisioning_failure_propagates Nat ("people") [] ⟨"42P01"⟩ ⟨"42P07"⟩
    (.ok []) rfl).1

/-- Character stream of the joined projection entries equals the joined
character streams: the names pass through join and templates untouched. -/
theorem joinSep_propEntry_data (ps : List String) :
    (joinSep (", ") (ps.map propEntry)).data = spliceFields ps := by
  induction ps with
  | nil => rfl
  | cons p ps ih =>
    have hp : (propEntry p).data = entryChars p.data := by
      simp [propEntry, entryChars, String.data_append, squote]
    cases ps with
    | nil =>
        show (propEntry p).data = entryChars p.data
        exact hp
    | cons q qs =>
        show (propEntry p ++ (", ") ++ joinSep (", ") ((q :: qs).map propEntry)).data
          = entryChars p.data ++ (", ").data ++ spliceFields (q :: qs)
        rw [String.data_append, String.data_append, ih, hp]

/-- C10: the statement text that propsToColumns builds for a non-empty field
list is the literal character-for-character concatenation of the names into
the fixed template (each name spliced twice, between bare single quotes and
after the -> operator, with no escaping and no parameter binding); a name
containing a single-quote character therefore changes the quote structure of
the generated statement: for a clean name the text has four quotes and the
name sits inside the two string literals, while the name a-quote-b yields six
quotes, placing the fragment b outside any literal and the operator fragment
inside one. -/
theorem propsToColumns_splices_verbatim :
    (∀ ps : List String, (propsToColumns (some ps)).data
        = ("jsonb_build_object(").data ++ spliceFields ps
          ++ (") " ++ "\"body\"").data)
  ∧ quoteSegments (propsToColumns (some [("ab")])) =
      [("jsonb_build_object(\n    ").data, ("ab").data, (", body->").data,
       ("ab").data, ("\n  ) " ++ "\"body\"").data]
  ∧ (quoteSegments (propsToColumns (some [("ab")]))).length = 5
  ∧ quoteSegments (propsToColumns (some [("a") ++ squote ++ ("b")])) =
      [("jsonb_build_object(\n    ").data, ("a").data, ("b").data,
       (", body->").data, ("a").data, ("b").data, ("\n  ) " ++ "\"body\"").data]
  ∧ (quoteSegments (propsToColumns (some [("a") ++ squote ++ ("b")]))).length = 7 := by
  refine ⟨?_, by decide, by decide, by decide, by decide⟩
  intro ps
  simp [propsToColumns, String.data_append, joinSep_propEntry_data]

end SwampDB
